import Mathlib

/-!
Verification development for the `AggregatedProfiles` class of the DALEX
repository (file `dalex/dataset_level/_aggregated_profiles/object.py`).

Tables are embedded as lists of records, pandas numbers as rationals, and
Python exceptions as `Except` values.  Since `fit` mutates the object in
place, its embedding returns the object state both on success and inside the
error value, so that "the state after an exception propagated" is expressible.

The helper functions imported by `object.py` from `checks.py` and `utils.py`
(`check_variable_type`, `check_variables`, `check_groups`,
`prepare_all_variables`, `prepare_numerical_categorical`, `create_x`,
`aggregate_profiles`) are not part of the sources at hand; they are modelled
from the specification, as marked on each of their doc comments.
-/

/-- A Python exception, distinguished by its class. -/
inductive PyError where
  | typeError (msg : String)
  | attributeError (msg : String)
  | valueError (msg : String)
deriving DecidableEq, Repr

/-- One row of an observation table (`new_observation` of a CeterisParibus
object); only the observed-prediction column `_yhat_` is relevant here. -/
structure ObsRow where
  yhat : ℚ
deriving DecidableEq, Repr

/-- One row of a per-instance profile table (`result` of a CeterisParibus
object): variable name `_vname_`, feature value, predicted value `_yhat_`,
observation id `_ids_`, model label `_label_`, the value of the grouping
column, and whether the feature column is of a numeric dtype. -/
structure ProfileRow where
  vname : String
  x : ℚ
  yhat : ℚ
  ids : Nat
  label : String
  groupval : String
  isNumeric : Bool
deriving DecidableEq, Repr

/-- A CeterisParibus container: a per-instance profile table paired with the
originating observation table. -/
structure CeterisParibus where
  result : List ProfileRow
  new_observation : List ObsRow
deriving DecidableEq, Repr

/-- One row of the aggregated result table. -/
structure AggRow where
  vname : String
  x : ℚ
  yhat : ℚ
  label : String
  group : Option String
  xNumeric : Bool
deriving DecidableEq, Repr

/-- A scalar-or-sequence string argument, as Python duck typing allows. -/
inductive StrArg where
  | noStr
  | one (s : String)
  | many (l : List String)
deriving DecidableEq, Repr

/-- The state of an `AggregatedProfiles` object: the configuration written by
`__init__` and the explanation attributes written by `fit`. -/
structure AggregatedProfiles where
  type : String
  variables_ : Option (List String)
  variable_type : String
  groups : Option (List String)
  span : ℚ
  center : Bool
  random_state : Option Nat
  result : Option (List AggRow)
  mean_prediction : Option ℚ
  raw_profiles : Option CeterisParibus
deriving DecidableEq, Repr

/-- Modelled from the spec: `check_variable_type` (from `checks.py`, absent
from the sources) — "Fails with a validation error if variable-kind is not one
of the two recognized values." -/
def check_variable_type (variable_type : String) : Except PyError Unit :=
  if variable_type = "numerical" ∨ variable_type = "categorical" then
    Except.ok ()
  else
    Except.error (PyError.valueError ("variable_type should be numerical or categorical"))

/-- Modelled from the spec: `check_variables` (from `checks.py`, absent from
the sources) — "Normalizes scalar name arguments into sequences." -/
def check_variables : StrArg → Option (List String)
  | StrArg.noStr => Option.none
  | StrArg.one s => Option.some [s]
  | StrArg.many l => Option.some l

/-- Modelled from the spec: `check_groups` (from `checks.py`, absent from the
sources) — "Normalizes scalar name arguments into sequences." -/
def check_groups : StrArg → Option (List String)
  | StrArg.noStr => Option.none
  | StrArg.one s => Option.some [s]
  | StrArg.many l => Option.some l

/-- `AggregatedProfiles.__init__`: validates the variable kind, normalizes the
name arguments, stores the configuration and clears the result attributes. -/
def AggregatedProfiles.init (type : String) (variables_ : StrArg)
    (variable_type : String) (groups : StrArg) (span : ℚ) (center : Bool)
    (random_state : Option Nat) : Except PyError AggregatedProfiles :=
  match check_variable_type variable_type with
  | Except.error e => Except.error e
  | Except.ok _ =>
    Except.ok
      { type := type
        variables_ := check_variables variables_
        variable_type := variable_type
        groups := check_groups groups
        span := span
        center := center
        random_state := random_state
        result := Option.none
        mean_prediction := Option.none
        raw_profiles := Option.none }

/-- Arithmetic mean of a list of rationals (sum divided by length; the empty
list yields `0` under the rational convention `q / 0 = 0`). -/
def ratMean (l : List ℚ) : ℚ := l.sum / (l.length : ℚ)

/-- Modelled from the spec: `prepare_all_variables` (from `utils.py`, absent
from the sources) — "determines the effective variable set (intersection of
requested variables_, or all available ...)". -/
def prepare_all_variables (all_profiles : List ProfileRow)
    (variables_ : Option (List String)) : List String :=
  let available := (all_profiles.map (fun r => r.vname)).dedup
  match variables_ with
  | Option.none => available
  | Option.some vs => available.filter (fun v => v ∈ vs)

/-- Modelled from the spec: `prepare_numerical_categorical` (from `utils.py`,
absent from the sources) — restricts the variable set "to those matching the
requested numerical/categorical kind". -/
def prepare_numerical_categorical (all_variables : List String)
    (all_profiles : List ProfileRow) (variable_type : String) :
    List ProfileRow × List String :=
  let wantNumeric := variable_type = "numerical"
  (all_profiles,
   all_variables.filter (fun v =>
     (all_profiles.filter (fun r => r.vname = v)).all
       (fun r => r.isNumeric = decide wantNumeric)))

/-- Modelled from the spec: `create_x` (from `utils.py`, absent from the
sources) — materialises the plotting value column `_x_` from the per-variable
feature value; in this embedding that value is already the `x` field, so the
transformation is the identity on rows. -/
def create_x (all_profiles : List ProfileRow) (_variable_type : String) :
    List ProfileRow :=
  all_profiles

/-- Aggregation key of a profile row: variable name, feature value, model
label and (when grouping is on) the grouping value. -/
def keyOf (useGroups : Bool) (r : ProfileRow) : String × ℚ × String × String :=
  (r.vname, r.x, r.label, if useGroups then r.groupval else "")

/-- Rows matching an aggregation key. -/
def rowsAt (useGroups : Bool) (rows : List ProfileRow)
    (k : String × ℚ × String × String) : List ProfileRow :=
  rows.filter (fun r => decide (keyOf useGroups r = k))

/-- Whether the feature column of the rows at a key is numeric. -/
def keyNumeric (useGroups : Bool) (rows : List ProfileRow)
    (k : String × ℚ × String × String) : Bool :=
  match (rowsAt useGroups rows k).head? with
  | Option.some r => r.isNumeric
  | Option.none => true

/-- Modelled from the spec: the "partial" strategy of `aggregate_profiles` —
"plain (optionally grouped) mean of predicted values per (variable, value)
bucket". -/
def meanAggregate (useGroups : Bool) (rows : List ProfileRow) : List AggRow :=
  ((rows.map (keyOf useGroups)).dedup).map (fun k =>
    { vname := k.1
      x := k.2.1
      yhat := ratMean ((rowsAt useGroups rows k).map (fun r => r.yhat))
      label := k.2.2.1
      group := if useGroups then Option.some k.2.2.2 else Option.none
      xNumeric := keyNumeric useGroups rows k })

/-- Modelled from the spec: a computable rational surrogate for the Gaussian
kernel weight with bandwidth `span` (the exact shape of the kernel is not
used by any property proved here, only that the weighting is a fixed pure
function of the distance and the bandwidth). -/
def kernelWeight (span d : ℚ) : ℚ := 1 / (1 + (d / span) ^ 2)

/-- Modelled from the spec: the "conditional" strategy of
`aggregate_profiles` — "locally weighted mean using a Gaussian-kernel
weighting by distance in feature value (bandwidth = configured span)". -/
def conditionalAggregate (useGroups : Bool) (span : ℚ)
    (rows : List ProfileRow) : List AggRow :=
  ((rows.map (keyOf useGroups)).dedup).map (fun k =>
    let peers := rows.filter (fun r =>
      decide (r.vname = k.1 ∧ r.label = k.2.2.1 ∧
        (if useGroups then r.groupval else "") = k.2.2.2))
    let wsum := (peers.map (fun r => kernelWeight span (k.2.1 - r.x))).sum
    { vname := k.1
      x := k.2.1
      yhat := (peers.map (fun r => kernelWeight span (k.2.1 - r.x) * r.yhat)).sum / wsum
      label := k.2.2.1
      group := if useGroups then Option.some k.2.2.2 else Option.none
      xNumeric := keyNumeric useGroups rows k })

/-- Insert a rational into a sorted list, keeping it sorted. -/
def sortedInsert (q : ℚ) : List ℚ → List ℚ
  | [] => [q]
  | a :: rest => if q ≤ a then q :: a :: rest else a :: sortedInsert q rest

/-- Sort a list of rationals in nondecreasing order. -/
def sortRats (l : List ℚ) : List ℚ := l.foldr sortedInsert []

/-- Predicted value of a given observation id at a given feature value within
a fixed (variable, label, groupval) slice of the profile table. -/
def yAt (slice : List ProfileRow) (i : Nat) (x : ℚ) : ℚ :=
  match slice.find? (fun r => decide (r.ids = i ∧ r.x = x)) with
  | Option.some r => r.yhat
  | Option.none => 0

/-- Running sums of a list of increments, starting from an accumulator; the
output has one more entry than the input. -/
def runningSums (acc : ℚ) : List ℚ → List ℚ
  | [] => [acc]
  | d :: rest => acc :: runningSums (acc + d) rest

/-- Modelled from the spec: the "accumulated" strategy of
`aggregate_profiles` — "per-observation successive differences along sorted
feature value, averaged per bucket, then cumulatively summed; if centering is
enabled, the cumulative curve is shifted so its weighted mean equals the
overall mean prediction". -/
def accumulatedAggregate (useGroups : Bool) (center : Bool)
    (rows : List ProfileRow) : List AggRow :=
  let slices := (rows.map (fun r =>
    (r.vname, r.label, if useGroups then r.groupval else ""))).dedup
  List.flatten (slices.map (fun s =>
    let slice := rows.filter (fun r =>
      decide (r.vname = s.1 ∧ r.label = s.2.1 ∧
        (if useGroups then r.groupval else "") = s.2.2))
    let xs := sortRats ((slice.map (fun r => r.x)).dedup)
    let ids := (slice.map (fun r => r.ids)).dedup
    let effects := (xs.zip xs.tail).map (fun p =>
      ratMean (ids.map (fun i => yAt slice i p.2 - yAt slice i p.1)))
    let curve := runningSums 0 effects
    let curve :=
      if center then
        curve.map (fun y => y + (ratMean (rows.map (fun r => r.yhat)) - ratMean curve))
      else curve
    (xs.zip curve).map (fun p =>
      { vname := s.1
        x := p.1
        yhat := p.2
        label := s.2.1
        group := if useGroups then Option.some s.2.2 else Option.none
        xNumeric := keyNumeric useGroups rows (s.1, p.1, s.2.1, s.2.2) })))

/-- Modelled from the spec: `aggregate_profiles` (from `utils.py`, absent from
the sources) — "computes per-variable aggregates using one of three
strategies selected by mode"; the spec describes no further fit-time failure
beyond input-type validation, so modes other than the two specially named
ones use the plain-mean strategy, and the progress-bar flag has no observable
effect. -/
def aggregate_profiles (rows : List ProfileRow) (type : String)
    (groups : Option (List String)) (center : Bool) (span : ℚ) : List AggRow :=
  if type = "accumulated" then accumulatedAggregate groups.isSome center rows
  else if type = "conditional" then conditionalAggregate groups.isSome span rows
  else meanAggregate groups.isSome rows

/-- The argument accepted by `fit`: a single CeterisParibus container, a
list/tuple whose elements may or may not be CeterisParibus containers (a
`none` entry models an element of any other class), or a value of any other
type altogether. -/
inductive FitInput where
  | single (cp : CeterisParibus)
  | seq (elems : List (Option CeterisParibus))
  | other
deriving DecidableEq, Repr

/-- The concatenation loop of the list/tuple branch of `fit`: the local
accumulators `all_profiles` and `all_observations` start out as Python
`None` (here `Option.none`), each element is checked to be a CeterisParibus
container (raising a `TypeError` at the first one that is not), and
`pd.concat` drops a `None` accumulator, so after the first container the
accumulators are real tables built up in order.  On the empty sequence the
loop never runs and both accumulators remain `None`. -/
def concatLoop (accP : Option (List ProfileRow)) (accO : Option (List ObsRow)) :
    List (Option CeterisParibus) →
    Except PyError (Option (List ProfileRow) × Option (List ObsRow))
  | [] => Except.ok (accP, accO)
  | Option.none :: _ =>
    Except.error (PyError.typeError ("Some explanations are not of CeterisParibus class"))
  | Option.some cp :: rest =>
    concatLoop (Option.some (accP.getD [] ++ cp.result))
      (Option.some (accO.getD [] ++ cp.new_observation)) rest

/-- The whole sequence branch concatenation, from the initial `None`
locals. -/
def concatElems (elems : List (Option CeterisParibus)) :
    Except PyError (Option (List ProfileRow) × Option (List ObsRow)) :=
  concatLoop Option.none Option.none elems

/-- The pipeline feeding the `result` assignment: variable selection, kind
filtering, row filtering, the `_x_` column, and the aggregation. -/
def computeResult (st : AggregatedProfiles) (all_profiles : List ProfileRow) :
    List AggRow :=
  let all_variables := prepare_all_variables all_profiles st.variables_
  let pr := prepare_numerical_categorical all_variables all_profiles st.variable_type
  let filtered := pr.1.filter (fun r => r.vname ∈ pr.2)
  let finalProfiles := create_x filtered st.variable_type
  aggregate_profiles finalProfiles st.type st.groups st.center st.span

/-- The tail of `fit` after the input branches, when both locals are real
tables: the attribute assignments of `result` and `mean_prediction`. -/
def fitTail (st : AggregatedProfiles) (all_profiles : List ProfileRow)
    (all_observations : List ObsRow) : AggregatedProfiles :=
  { st with
    result := Option.some (computeResult st all_profiles)
    mean_prediction := Option.some (ratMean (all_observations.map (fun o => o.yhat))) }

/-- `AggregatedProfiles.fit`.  The embedding returns the new object state on
success; an exception carries the message together with the object state at
the moment it propagates (mirroring in-place mutation: in the
single-container branch `raw_profiles` is assigned the deep copy before the
aggregation, in the sequence branch the element-type `TypeError` is raised
before any attribute assignment).  On an empty list/tuple the loop leaves
both locals `None`: the spec-modelled helpers are total, so the `result`
assignment still happens, and then subscripting the `None` observations
local for the mean raises a `TypeError` — after `result` was written. -/
def AggregatedProfiles.fit (st : AggregatedProfiles) (ceteris_paribus : FitInput) :
    Except (PyError × AggregatedProfiles) AggregatedProfiles :=
  match ceteris_paribus with
  | FitInput.single cp =>
    let st1 := { st with raw_profiles := Option.some cp }
    Except.ok (fitTail st1 cp.result cp.new_observation)
  | FitInput.seq elems =>
    match concatElems elems with
    | Except.error e => Except.error (e, st)
    | Except.ok (psOpt, osOpt) =>
      match osOpt with
      | Option.none =>
        Except.error
          (PyError.typeError ("NoneType object is not subscriptable"),
           { st with result := Option.some (computeResult st (psOpt.getD [])) })
      | Option.some os => Except.ok (fitTail st (psOpt.getD []) os)
  | FitInput.other =>
    Except.error
      (PyError.typeError
        ("ceteris_paribus should be either Ceteris Paribus object or list/tuple of CeterisParbus objects"),
       st)

/-- The object state after a call to `fit`, whether it returned normally or
raised (Python mutates in place, so the object survives the exception). -/
def runFit (st : AggregatedProfiles) (input : FitInput) : AggregatedProfiles :=
  match st.fit input with
  | Except.ok st1 => st1
  | Except.error p => p.2

/-- The `objects` argument of `plot`: absent, a single further
`AggregatedProfiles` object, or a list/tuple whose elements may or may not be
`AggregatedProfiles` objects (a `none` entry models an element of any other
class). -/
inductive PlotObjects where
  | noObjects
  | single (ap : AggregatedProfiles)
  | seq (l : List (Option AggregatedProfiles))
deriving Repr

/-- One row of the merged dataframe `_result_df` built inside `plot`: an
aggregated-result row together with the `_mp_` column added by `assign`. -/
structure PlotRow where
  vname : String
  x : ℚ
  yhat : ℚ
  label : String
  xNumeric : Bool
  mp : Option ℚ
deriving DecidableEq, Repr

/-- `some_object.result.assign(_mp_=some_object.mean_prediction)`: raises an
`AttributeError` when `result` is still `None` (the object was never
fitted), otherwise tags every row with the mean prediction. -/
def assignMp (st : AggregatedProfiles) : Except PyError (List PlotRow) :=
  match st.result with
  | Option.none =>
    Except.error (PyError.attributeError ("NoneType object has no attribute assign"))
  | Option.some rows =>
    Except.ok (rows.map (fun r =>
      { vname := r.vname, x := r.x, yhat := r.yhat, label := r.label,
        xNumeric := r.xNumeric, mp := st.mean_prediction }))

/-- The loop over the `objects` sequence in `plot`: each element is first
checked to be an `AggregatedProfiles` object (raising a `TypeError`
otherwise) and then concatenated onto the merged dataframe. -/
def mergeLoop (acc : List PlotRow) :
    List (Option AggregatedProfiles) → Except PyError (List PlotRow)
  | [] => Except.ok acc
  | Option.none :: _ =>
    Except.error (PyError.typeError ("Some explanations are not of AggregatedProfiles class"))
  | Option.some ob :: rest =>
    match assignMp ob with
    | Except.error e => Except.error e
    | Except.ok df => mergeLoop (acc ++ df) rest

/-- Builds `_result_df`: the result table of `self` and of every additional
object, each tagged with its own mean prediction, concatenated in order. -/
def mergeObjects (st : AggregatedProfiles) (objects : PlotObjects) :
    Except PyError (List PlotRow) :=
  match objects with
  | PlotObjects.noObjects => assignMp st
  | PlotObjects.single ob =>
    match assignMp st with
    | Except.error e => Except.error e
    | Except.ok a =>
      match assignMp ob with
      | Except.error e => Except.error e
      | Except.ok b => Except.ok (a ++ b)
  | PlotObjects.seq l =>
    match assignMp st with
    | Except.error e => Except.error e
    | Except.ok a => mergeLoop a l

/-- The semantic content of the figure built by `plot`: the plotted rows, the
facet variables in order, whether the bar branch (categorical feature axis)
was taken, and whether raw profiles are overlaid.  Cosmetic styling (sizes,
spacing, titles, colors, axis ranges) is not modelled. -/
structure Figure where
  rows : List PlotRow
  variables_ : List String
  isBar : Bool
  withRawProfiles : Bool
deriving DecidableEq, Repr

/-- The arguments of `plot` that have observable effect in this embedding. -/
structure PlotArgs where
  objects : PlotObjects
  geom : String
  variables_ : StrArg
  show_ : Bool
deriving Repr

/-- The normalization at the top of `plot`: a bare string argument for
`variables` becomes a one-element tuple. -/
def plotVariables : StrArg → Option (List String)
  | StrArg.noStr => Option.none
  | StrArg.one s => Option.some [s]
  | StrArg.many l => Option.some l

/-- The tail of `plot` after the dataframe is final: numeric-axis test,
figure construction (line facets, optionally with the raw-profile overlay
when `geom` is the profiles mode and a raw profile was retained, or bar
facets for a categorical axis), then either display (`show=True`, returning
`None`) or return of the figure (`show=False`).  The first component records
whether `fig.show()` was called, the second the returned value. -/
def finishPlot (st : AggregatedProfiles) (args : PlotArgs) (df : List PlotRow)
    (all_variables : List String) : Bool × Option Figure :=
  let is_x_numeric := df.all (fun r => r.xNumeric)
  let withRaw := is_x_numeric && decide (args.geom = "profiles") && st.raw_profiles.isSome
  let fig : Figure :=
    { rows := df, variables_ := all_variables,
      isBar := !is_x_numeric, withRawProfiles := withRaw }
  if args.show_ then (true, Option.none) else (false, Option.some fig)

/-- The y-axis range computation `dl.ptp()` over the merged `_yhat_` values:
on a zero-size array the reduction raises a `ValueError`; otherwise the
figure is built and shown or returned. -/
def rangeAndFinish (st : AggregatedProfiles) (args : PlotArgs)
    (df : List PlotRow) (all_variables : List String) :
    Except PyError (Bool × Option Figure) :=
  if df.isEmpty then
    Except.error (PyError.valueError ("zero-size array to reduction operation"))
  else
    Except.ok (finishPlot st args df all_variables)

/-- `AggregatedProfiles.plot`, in source order: the `geom` membership check,
the string-to-tuple normalization of `variables`, the merge of `self` with
the additional objects, the available-variable list, the intersection with
the requested variables (raising a `TypeError` when empty) with the row
filter, and the figure construction with the show-or-return choice. -/
def AggregatedProfiles.plot (st : AggregatedProfiles) (args : PlotArgs) :
    Except PyError (Bool × Option Figure) :=
  if args.geom ≠ "aggregates" ∧ args.geom ≠ "profiles" then
    Except.error (PyError.typeError ("geom should be aggregates or profiles"))
  else
    match mergeObjects st args.objects with
    | Except.error e => Except.error e
    | Except.ok df =>
      let all_variables := (df.map (fun r => r.vname)).dedup
      match plotVariables args.variables_ with
      | Option.none => rangeAndFinish st args df all_variables
      | Option.some vs =>
        let inter := all_variables.inter vs
        if inter = [] then
          Except.error (PyError.typeError ("variables do not overlap with " ++ String.join vs))
        else
          rangeAndFinish st args (df.filter (fun r => r.vname ∈ inter)) inter

/-- Spec-side predicate (from the wording of the claim about `fit` input
validation): the argument is acceptable when it is a single container or a
list/tuple whose every element is a container. -/
def validFitArgument : FitInput → Prop
  | FitInput.single _ => True
  | FitInput.seq elems => ∀ c ∈ elems, c.isSome
  | FitInput.other => False

/-- Spec-side predicate for the amended input-validation claim: like
`validFitArgument`, but a list/tuple must also be nonempty (on the empty
sequence the observation local stays `None` and `fit` raises a `TypeError`
at the mean computation). -/
def fitArgumentAccepted : FitInput → Prop
  | FitInput.single _ => True
  | FitInput.seq elems => elems ≠ [] ∧ ∀ c ∈ elems, c.isSome
  | FitInput.other => False

/-- Whether a `fit` call raised a `TypeError`. -/
def fitRaisesTypeError
    (r : Except (PyError × AggregatedProfiles) AggregatedProfiles) : Prop :=
  match r with
  | Except.error (PyError.typeError _, _) => True
  | _ => False

/-- Whether a `plot` call raised a `TypeError`. -/
def raisesTypeError (r : Except PyError (Bool × Option Figure)) : Prop :=
  match r with
  | Except.error (PyError.typeError _) => True
  | _ => False

/-- Spec-side function (from the wording of the claim about
`mean_prediction`): the concatenation of the observation tables of all the
supplied profile containers. -/
def suppliedObservations : FitInput → List ObsRow
  | FitInput.single cp => cp.new_observation
  | FitInput.seq elems =>
    ((elems.filterMap id).map (fun cp => cp.new_observation)).flatten
  | FitInput.other => []

/-- Two objects share the same immutable configuration: all fields written by
`__init__` except the result attributes agree. -/
def sameConfig (a b : AggregatedProfiles) : Prop :=
  a.type = b.type ∧ a.variables_ = b.variables_ ∧
  a.variable_type = b.variable_type ∧ a.groups = b.groups ∧
  a.span = b.span ∧ a.center = b.center ∧ a.random_state = b.random_state

/-- The merged dataframe of a `plot` call, defaulting to the empty table when
the merge raised. -/
def runMerge (st : AggregatedProfiles) (objects : PlotObjects) : List PlotRow :=
  match mergeObjects st objects with
  | Except.ok df => df
  | Except.error _ => []

/-- The outcome of a successful `plot` call (show flag and returned value),
defaulting to a dummy when the call raised. -/
def plotOut (st : AggregatedProfiles) (args : PlotArgs) : Bool × Option Figure :=
  match st.plot args with
  | Except.ok o => o
  | Except.error _ => (false, Option.none)

/-- A concrete freshly constructed object, with the default configuration of
`__init__`; it equals the output of `AggregatedProfiles.init` on the default
arguments. -/
def freshAP : AggregatedProfiles :=
  { type := "partial", variables_ := Option.none, variable_type := "numerical",
    groups := Option.none, span := 1/4, center := true,
    random_state := Option.none, result := Option.none,
    mean_prediction := Option.none, raw_profiles := Option.none }

/-- A concrete CeterisParibus container with one numerical variable "a",
profile values at two feature points, and one observation. -/
def cexCP : CeterisParibus :=
  { result := [{ vname := "a", x := 0, yhat := 1, ids := 0, label := "m",
                 groupval := "", isNumeric := true },
               { vname := "a", x := 1, yhat := 3, ids := 0, label := "m",
                 groupval := "", isNumeric := true }],
    new_observation := [{ yhat := 2 }] }

/-- A second concrete CeterisParibus container with a different observed
prediction. -/
def cexCP2 : CeterisParibus :=
  { result := [{ vname := "a", x := 0, yhat := 5, ids := 1, label := "m",
                 groupval := "", isNumeric := true },
               { vname := "a", x := 1, yhat := 7, ids := 1, label := "m",
                 groupval := "", isNumeric := true }],
    new_observation := [{ yhat := 4 }] }

/-- The object state after fitting `freshAP` on the single container
`cexCP`. -/
def afterSingle : AggregatedProfiles := runFit freshAP (FitInput.single cexCP)

/-- The object state after a further fit of `afterSingle` on a list of two
containers. -/
def afterSeq : AggregatedProfiles :=
  runFit afterSingle (FitInput.seq [Option.some cexCP, Option.some cexCP])

/-- Plot arguments whose `variables` filter are disjoint from the available
variable names. -/
def disjointArgs : PlotArgs :=
  { objects := PlotObjects.noObjects, geom := "aggregates",
    variables_ := StrArg.many ["zzz"], show_ := true }

/-- Plot arguments with a `geom` value outside the two recognized ones. -/
def badGeomArgs : PlotArgs :=
  { objects := PlotObjects.noObjects, geom := "bars",
    variables_ := StrArg.noStr, show_ := true }

/-- Plot arguments with `show=False` and no filtering. -/
def showFalseArgs : PlotArgs :=
  { objects := PlotObjects.noObjects, geom := "aggregates",
    variables_ := StrArg.noStr, show_ := false }

/-- Plot arguments with `show=True` and no filtering. -/
def showTrueArgs : PlotArgs :=
  { objects := PlotObjects.noObjects, geom := "aggregates",
    variables_ := StrArg.noStr, show_ := true }

lemma fitTail_raw_profiles (st : AggregatedProfiles) (ps : List ProfileRow)
    (os : List ObsRow) : (fitTail st ps os).raw_profiles = st.raw_profiles := rfl

lemma fit_single_eq (st : AggregatedProfiles) (cp : CeterisParibus) :
    st.fit (FitInput.single cp)
      = Except.ok (fitTail { st with raw_profiles := Option.some cp }
          cp.result cp.new_observation) := rfl

lemma concatLoop_snd_none (elems : List (Option CeterisParibus)) :
    ∀ accP accO p, concatLoop accP accO elems = Except.ok (p, Option.none) →
      elems = [] ∧ accO = Option.none := by
  induction elems with
  | nil =>
    intro accP accO p h
    simp [concatLoop] at h
    exact ⟨rfl, h.2⟩
  | cons c rest ih =>
    cases c with
    | none =>
      intro accP accO p h
      simp [concatLoop] at h
    | some cp =>
      intro accP accO p h
      have hrec := ih _ _ p (by simpa [concatLoop] using h)
      exact absurd hrec.2 (by simp)

lemma fit_seq_ok_inv (st st1 : AggregatedProfiles)
    (elems : List (Option CeterisParibus))
    (h : st.fit (FitInput.seq elems) = Except.ok st1) :
    ∃ psOpt os, concatElems elems = Except.ok (psOpt, Option.some os)
      ∧ st1 = fitTail st (psOpt.getD []) os := by
  cases hc : concatElems elems with
  | error e => simp [AggregatedProfiles.fit, hc] at h
  | ok pr =>
    obtain ⟨psOpt, osOpt⟩ := pr
    cases osOpt with
    | none => simp [AggregatedProfiles.fit, hc] at h
    | some os =>
      refine ⟨psOpt, os, rfl, ?_⟩
      simp [AggregatedProfiles.fit, hc] at h
      exact h.symm

lemma fit_error_state_fields (st : AggregatedProfiles) (input : FitInput)
    (e : PyError) (st1 : AggregatedProfiles)
    (h : st.fit input = Except.error (e, st1)) :
    st1.mean_prediction = st.mean_prediction
      ∧ st1.raw_profiles = st.raw_profiles
      ∧ (input = FitInput.seq [] ∨ st1 = st) := by
  cases input with
  | single cp => simp [AggregatedProfiles.fit] at h
  | seq elems =>
    cases hc : concatElems elems with
    | error e1 =>
      simp [AggregatedProfiles.fit, hc] at h
      rw [← h.2]
      exact ⟨rfl, rfl, Or.inr rfl⟩
    | ok pr =>
      obtain ⟨psOpt, osOpt⟩ := pr
      cases osOpt with
      | some os => simp [AggregatedProfiles.fit, hc] at h
      | none =>
        have hempty : elems = [] :=
          (concatLoop_snd_none elems Option.none Option.none psOpt
            (by simpa [concatElems] using hc)).1
        simp [AggregatedProfiles.fit, hc] at h
        rw [← h.2]
        exact ⟨rfl, rfl, Or.inl (by rw [hempty])⟩
  | other =>
    simp [AggregatedProfiles.fit] at h
    rw [← h.2]
    exact ⟨rfl, rfl, Or.inr rfl⟩

/-- C9: constructing an `AggregatedProfiles` object with a `variable_type`
that is neither "numerical" nor "categorical" fails with a validation
error. -/
theorem init_invalid_variable_type_valueError (type : String)
    (variables_ : StrArg) (groups : StrArg) (span : ℚ) (center : Bool)
    (random_state : Option Nat) (variable_type : String)
    (h1 : variable_type ≠ "numerical") (h2 : variable_type ≠ "categorical") :
    AggregatedProfiles.init type variables_ variable_type groups span center random_state
      = Except.error (PyError.valueError ("variable_type should be numerical or categorical")) := by
  simp [AggregatedProfiles.init, check_variable_type, h1, h2]

/-- C9 witness: constructing with the misspelt kind "numeric" fails with the
validation error. -/
theorem init_invalid_variable_type_valueError_witness :
    AggregatedProfiles.init "partial" StrArg.noStr "numeric" StrArg.noStr (1/4) true Option.none
      = Except.error (PyError.valueError ("variable_type should be numerical or categorical")) :=
  init_invalid_variable_type_valueError "partial" StrArg.noStr StrArg.noStr
    (1/4) true Option.none "numeric" (by decide) (by decide)

/-- C5: a `plot` call whose `geom` argument is neither "aggregates" nor
"profiles" raises a `TypeError` as its very first step, before building any
figure. -/
theorem plot_invalid_geom_typeError (st : AggregatedProfiles) (args : PlotArgs)
    (h1 : args.geom ≠ "aggregates") (h2 : args.geom ≠ "profiles") :
    st.plot args
      = Except.error (PyError.typeError ("geom should be aggregates or profiles")) := by
  unfold AggregatedProfiles.plot
  rw [if_pos ⟨h1, h2⟩]

/-- C5 witness: `geom="bars"` raises the `TypeError`, even on an unfitted
object. -/
theorem plot_invalid_geom_typeError_witness :
    freshAP.plot badGeomArgs
      = Except.error (PyError.typeError ("geom should be aggregates or profiles")) :=
  plot_invalid_geom_typeError freshAP badGeomArgs (by decide) (by decide)

/-- C2 counterexample: starting from a freshly constructed object, a first
`fit` on the single container `cexCP`, followed by a second, successful `fit`
on a list of two containers, leaves `raw_profiles` equal to the previously
stored copy — not absent as the claim states for merged-sequence inputs. -/
theorem fit_seq_raw_profiles_not_cleared_cex :
    AggregatedProfiles.init "partial" StrArg.noStr "numerical" StrArg.noStr (1/4) true Option.none
      = Except.ok freshAP
    ∧ freshAP.fit (FitInput.single cexCP) = Except.ok afterSingle
    ∧ afterSingle.fit (FitInput.seq [Option.some cexCP, Option.some cexCP])
      = Except.ok afterSeq
    ∧ afterSeq.raw_profiles = Option.some cexCP
    ∧ Option.some cexCP ≠ (Option.none : Option CeterisParibus) :=
  ⟨rfl, rfl, rfl, rfl, by decide⟩

/-- C2 (amended): after a successful `fit` on a single container,
`raw_profiles` holds a copy of that container; after a successful `fit` on a
list/tuple of containers, `raw_profiles` is unchanged from before the call
(hence `None` only when it was already `None`, e.g. on a freshly constructed
object). -/
theorem fit_raw_profiles_amended (st st1 : AggregatedProfiles) :
    (∀ cp : CeterisParibus,
      st.fit (FitInput.single cp) = Except.ok st1 → st1.raw_profiles = Option.some cp)
    ∧ (∀ elems : List (Option CeterisParibus),
      st.fit (FitInput.seq elems) = Except.ok st1 → st1.raw_profiles = st.raw_profiles) := by
  constructor
  · intro cp h
    rw [fit_single_eq] at h
    rw [(Except.ok.inj h).symm, fitTail_raw_profiles]
  · intro elems h
    obtain ⟨ps, os, hc, h1⟩ := fit_seq_ok_inv st st1 elems h
    rw [h1, fitTail_raw_profiles]

/-- C2 witness: on the concrete single-container fit, `raw_profiles` holds
the container. -/
theorem fit_raw_profiles_amended_witness :
    afterSingle.raw_profiles = Option.some cexCP :=
  (fit_raw_profiles_amended freshAP afterSingle).1 cexCP rfl

/-- C10: a `fit` call on a list/tuple input never writes `raw_profiles`:
whether the call returns normally or raises, the attribute keeps exactly the
value it held before the call. -/
theorem fit_seq_never_writes_raw_profiles (st : AggregatedProfiles)
    (elems : List (Option CeterisParibus)) :
    (runFit st (FitInput.seq elems)).raw_profiles = st.raw_profiles := by
  cases h : st.fit (FitInput.seq elems) with
  | error p =>
    have hf := fit_error_state_fields st _ p.1 p.2 (by rw [h])
    simp only [runFit, h]
    exact hf.2.1
  | ok st1 =>
    obtain ⟨ps, os, hc, h1⟩ := fit_seq_ok_inv st st1 elems h
    simp only [runFit, h]
    rw [h1, fitTail_raw_profiles]

/-- C7 counterexample: `fit` on the empty list raises a `TypeError`
(subscripting the `None` observations local at the mean computation), but
only after the `result` attribute has already been overwritten — a
partial-result state on failure, contradicting the claim. -/
theorem fit_empty_seq_partial_state_cex :
    fitRaisesTypeError (freshAP.fit (FitInput.seq []))
    ∧ (runFit freshAP (FitInput.seq [])).result ≠ freshAP.result :=
  ⟨trivial, by decide⟩

/-- C7 (amended): a `fit` call that raises leaves `mean_prediction` and
`raw_profiles` at their prior values, and also leaves `result` unchanged
except for the empty-list/tuple call, where `result` is assigned before the
mean computation raises. -/
theorem fit_error_atomic_amended (st : AggregatedProfiles) (input : FitInput)
    (e : PyError) (st1 : AggregatedProfiles)
    (h : st.fit input = Except.error (e, st1)) :
    st1.mean_prediction = st.mean_prediction
      ∧ st1.raw_profiles = st.raw_profiles
      ∧ (input ≠ FitInput.seq [] → st1.result = st.result) := by
  obtain ⟨h1, h2, h3⟩ := fit_error_state_fields st input e st1 h
  refine ⟨h1, h2, fun hne => ?_⟩
  rcases h3 with h3 | h3
  · exact absurd h3 hne
  · rw [h3]

/-- C7 witness: a fitted object fed a nonempty list with a non-container
element raises and is left entirely untouched. -/
theorem fit_error_atomic_amended_witness :
    afterSingle.mean_prediction = afterSingle.mean_prediction
    ∧ afterSingle.raw_profiles = afterSingle.raw_profiles
    ∧ (FitInput.seq [Option.some cexCP, Option.none] ≠ FitInput.seq []
        → afterSingle.result = afterSingle.result) :=
  fit_error_atomic_amended afterSingle
    (FitInput.seq [Option.some cexCP, Option.none])
    (PyError.typeError ("Some explanations are not of CeterisParibus class"))
    afterSingle rfl

lemma concatLoop_error_of_invalid (elems : List (Option CeterisParibus))
    (h : ¬ ∀ c ∈ elems, c.isSome) :
    ∀ accP accO, concatLoop accP accO elems
      = Except.error (PyError.typeError ("Some explanations are not of CeterisParibus class")) := by
  induction elems with
  | nil => exact absurd (by simp) h
  | cons c rest ih =>
    cases c with
    | none =>
      intro accP accO
      rfl
    | some cp =>
      intro accP accO
      have hrest : ¬ ∀ c ∈ rest, c.isSome := by
        intro hall
        apply h
        intro c hc
        rcases List.mem_cons.mp hc with h1 | h2
        · simp [h1]
        · exact hall c h2
      exact ih hrest _ _

lemma concatLoop_ok_of_valid (elems : List (Option CeterisParibus))
    (h : ∀ c ∈ elems, c.isSome) :
    ∀ accP accO, ∃ p o, concatLoop accP accO elems = Except.ok (p, o)
      ∧ o.isSome = (accO.isSome || !elems.isEmpty) := by
  induction elems with
  | nil =>
    intro accP accO
    exact ⟨accP, accO, rfl, by simp⟩
  | cons c rest ih =>
    cases c with
    | none =>
      have := h Option.none (List.mem_cons_self _ _)
      simp at this
    | some cp =>
      intro accP accO
      obtain ⟨p, o, hok, hsome⟩ :=
        ih (fun c hc => h c (List.mem_cons_of_mem _ hc))
          (Option.some (accP.getD [] ++ cp.result))
          (Option.some (accO.getD [] ++ cp.new_observation))
      exact ⟨p, o, by simpa [concatLoop] using hok, by simp [hsome]⟩

lemma concatLoop_snd_getD (elems : List (Option CeterisParibus)) :
    ∀ accP accO p o, concatLoop accP accO elems = Except.ok (p, o) →
      o.getD [] = accO.getD []
        ++ ((elems.filterMap id).map (fun cp => cp.new_observation)).flatten := by
  induction elems with
  | nil =>
    intro accP accO p o h
    simp [concatLoop] at h
    simp [← h.2]
  | cons c rest ih =>
    cases c with
    | none =>
      intro accP accO p o h
      simp [concatLoop] at h
    | some cp =>
      intro accP accO p o h
      have hrec := ih _ _ p o (by simpa [concatLoop] using h)
      simp at hrec
      simpa using hrec

/-- C1 counterexample: the empty list satisfies the claim's acceptable shape
(every element is a container, vacuously), yet `fit` raises a `TypeError` on
it: the loop leaves the observations local `None` and the mean computation
subscripts it. -/
theorem fit_empty_seq_typeError_cex :
    validFitArgument (FitInput.seq [])
    ∧ fitRaisesTypeError (freshAP.fit (FitInput.seq [])) :=
  ⟨fun c hc => absurd hc (List.not_mem_nil c), trivial⟩

/-- C1 (amended): a `fit` call raises a `TypeError` precisely when its
argument is neither a single CeterisParibus container nor a nonempty
list/tuple whose every element is a CeterisParibus container; in particular
a list with any non-container element always raises instead of being
silently skipped, and so does the empty list. -/
theorem fit_typeError_iff_not_accepted (st : AggregatedProfiles)
    (input : FitInput) :
    fitRaisesTypeError (st.fit input) ↔ ¬ fitArgumentAccepted input := by
  cases input with
  | single cp => simp [fit_single_eq, fitRaisesTypeError, fitArgumentAccepted]
  | other => simp [AggregatedProfiles.fit, fitRaisesTypeError, fitArgumentAccepted]
  | seq elems =>
    by_cases h : ∀ c ∈ elems, c.isSome
    · by_cases he : elems = []
      · subst he
        exact iff_of_true trivial (by simp [fitArgumentAccepted])
      · obtain ⟨p, o, hok, hsome⟩ :=
          concatLoop_ok_of_valid elems h Option.none Option.none
        have hOsome : o.isSome = true := by
          rw [hsome]
          simp [he]
        obtain ⟨os, hos⟩ := Option.isSome_iff_exists.mp hOsome
        subst hos
        have hfit : st.fit (FitInput.seq elems)
            = Except.ok (fitTail st (p.getD []) os) := by
          simp [AggregatedProfiles.fit,
            show concatElems elems = Except.ok (p, Option.some os) from hok]
        rw [hfit]
        refine iff_of_false (by simp [fitRaisesTypeError]) ?_
        simp [fitArgumentAccepted, he]
        intro hmem
        simpa using h Option.none hmem
    · have hc : concatElems elems
          = Except.error (PyError.typeError ("Some explanations are not of CeterisParibus class")) :=
        concatLoop_error_of_invalid elems h Option.none Option.none
      have hfit : st.fit (FitInput.seq elems)
          = Except.error
              (PyError.typeError ("Some explanations are not of CeterisParibus class"), st) := by
        simp [AggregatedProfiles.fit, hc]
      rw [hfit]
      refine iff_of_true trivial ?_
      simp [fitArgumentAccepted]
      intro _
      push_neg at h
      obtain ⟨c, hmem, hsome⟩ := h
      cases c with
      | none => exact hmem
      | some cp => simp at hsome

/-- C3: after every successful `fit`, `mean_prediction` equals the arithmetic
mean of the observed-prediction column over the concatenation of the
observation tables of all supplied containers. -/
theorem fit_mean_prediction_eq_mean_concat (st st1 : AggregatedProfiles)
    (input : FitInput) (h : st.fit input = Except.ok st1) :
    st1.mean_prediction
      = Option.some (ratMean ((suppliedObservations input).map (fun o => o.yhat))) := by
  cases input with
  | single cp =>
    rw [fit_single_eq] at h
    rw [(Except.ok.inj h).symm]
    rfl
  | other => simp [AggregatedProfiles.fit] at h
  | seq elems =>
    obtain ⟨psOpt, os, hc, h1⟩ := fit_seq_ok_inv st st1 elems h
    rw [h1]
    show (fitTail st (psOpt.getD []) os).mean_prediction = _
    have hos := concatLoop_snd_getD elems Option.none Option.none psOpt
      (Option.some os) (by simpa [concatElems] using hc)
    simp at hos
    simp [fitTail, suppliedObservations, hos]

/-- C3 witness: fitting two concrete containers with observed predictions 2
and 4 gives the mean over their concatenated observation tables. -/
theorem fit_mean_prediction_eq_mean_concat_witness :
    (runFit freshAP (FitInput.seq [Option.some cexCP, Option.some cexCP2])).mean_prediction
      = Option.some (ratMean ((suppliedObservations
          (FitInput.seq [Option.some cexCP, Option.some cexCP2])).map (fun o => o.yhat))) :=
  fit_mean_prediction_eq_mean_concat freshAP _
    (FitInput.seq [Option.some cexCP, Option.some cexCP2]) rfl

lemma fitTail_result_congr (a b : AggregatedProfiles) (h : sameConfig a b)
    (ps : List ProfileRow) (os : List ObsRow) :
    (fitTail a ps os).result = (fitTail b ps os).result := by
  obtain ⟨h1, h2, h3, h4, h5, h6, h7⟩ := h
  simp [fitTail, computeResult, h1, h2, h3, h4, h5, h6]

/-- C8: two `fit` calls on objects sharing the same configuration (type,
variables, variable_type, groups, span, center, random_state) and given the
same input produce identical result tables, regardless of any prior result
state of either object. -/
theorem fit_result_config_deterministic (a b : AggregatedProfiles)
    (input : FitInput) (h : sameConfig a b) (sa sb : AggregatedProfiles)
    (ha : a.fit input = Except.ok sa) (hb : b.fit input = Except.ok sb) :
    sa.result = sb.result := by
  cases input with
  | single cp =>
    rw [fit_single_eq] at ha hb
    rw [(Except.ok.inj ha).symm, (Except.ok.inj hb).symm]
    apply fitTail_result_congr
    obtain ⟨h1, h2, h3, h4, h5, h6, h7⟩ := h
    exact ⟨h1, h2, h3, h4, h5, h6, h7⟩
  | other => simp [AggregatedProfiles.fit] at ha
  | seq elems =>
    obtain ⟨p1, os1, hc1, h1⟩ := fit_seq_ok_inv a sa elems ha
    obtain ⟨p2, os2, hc2, h2⟩ := fit_seq_ok_inv b sb elems hb
    have hpr := Except.ok.inj (hc1.symm.trans hc2)
    have hp : p1 = p2 := congrArg Prod.fst hpr
    have ho : os1 = os2 := Option.some.inj (congrArg Prod.snd hpr)
    rw [h1, h2, ← hp, ← ho]
    exact fitTail_result_congr a b h (p1.getD []) os1

/-- C8 witness: a fresh object and an already-fitted object with the same
configuration produce the same result table on the same input. -/
theorem fit_result_config_deterministic_witness :
    (runFit freshAP (FitInput.single cexCP2)).result
      = (runFit afterSingle (FitInput.single cexCP2)).result :=
  fit_result_config_deterministic freshAP afterSingle (FitInput.single cexCP2)
    ⟨rfl, rfl, rfl, rfl, rfl, rfl, rfl⟩ _ _ rfl rfl

/-- C4: a `plot` call with a non-`None` variables filter whose intersection
with the variable names available in the merged result tables is empty raises
a `TypeError`. -/
theorem plot_disjoint_variables_typeError (st : AggregatedProfiles)
    (args : PlotArgs) (vs : List String) (df : List PlotRow)
    (hv : plotVariables args.variables_ = Option.some vs)
    (hm : mergeObjects st args.objects = Except.ok df)
    (hd : ((df.map (fun r => r.vname)).dedup).inter vs = []) :
    raisesTypeError (st.plot args) := by
  unfold AggregatedProfiles.plot
  by_cases hg : args.geom ≠ "aggregates" ∧ args.geom ≠ "profiles"
  · rw [if_pos hg]
    exact trivial
  · rw [if_neg hg, hm]
    simp only [hv]
    simp [hd, raisesTypeError]

/-- C4 witness: a fitted object plotted with the filter ["zzz"], disjoint
from its only variable "a", raises the `TypeError`. -/
theorem plot_disjoint_variables_typeError_witness :
    raisesTypeError (afterSingle.plot disjointArgs) :=
  plot_disjoint_variables_typeError afterSingle disjointArgs ["zzz"]
    (runMerge afterSingle PlotObjects.noObjects) rfl rfl (by decide)

lemma rangeAndFinish_ok_inv (st : AggregatedProfiles) (args : PlotArgs)
    (df : List PlotRow) (av : List String) (out : Bool × Option Figure)
    (h : rangeAndFinish st args df av = Except.ok out) :
    out = finishPlot st args df av := by
  unfold rangeAndFinish at h
  split at h
  · simp at h
  · exact (Except.ok.inj h).symm

lemma finishPlot_full (st : AggregatedProfiles) (args : PlotArgs)
    (df : List PlotRow) (av : List String) (out : Bool × Option Figure)
    (h : out = finishPlot st args df av) :
    out.1 = args.show_ ∧ out.2.isSome = !args.show_
      ∧ (out.1 = true → out.2 = Option.none) := by
  subst h
  unfold finishPlot
  cases hs : args.show_ <;> simp

/-- C6: a successful `plot` call displays the chart exactly when `show` is
true and in that case returns `None`; when `show` is false it does not
display and returns the figure; it never both displays and returns one (the
first component records whether `fig.show()` ran, the second the returned
value). -/
theorem plot_show_xor_return (st : AggregatedProfiles) (args : PlotArgs)
    (out : Bool × Option Figure) (h : st.plot args = Except.ok out) :
    out.1 = args.show_ ∧ out.2.isSome = !args.show_
      ∧ (out.1 = true → out.2 = Option.none) := by
  unfold AggregatedProfiles.plot at h
  split at h
  · simp at h
  · split at h
    · simp at h
    · split at h
      · exact finishPlot_full st args _ _ out (rangeAndFinish_ok_inv st args _ _ out h)
      · dsimp only [] at h
        split at h
        · simp at h
        · exact finishPlot_full st args _ _ out (rangeAndFinish_ok_inv st args _ _ out h)

/-- C6 witness: plotting the fitted concrete object with `show=False` returns
the figure without displaying it. -/
theorem plot_show_xor_return_witness :
    (plotOut afterSingle showFalseArgs).1 = showFalseArgs.show_
    ∧ (plotOut afterSingle showFalseArgs).2.isSome = !showFalseArgs.show_
    ∧ ((plotOut afterSingle showFalseArgs).1 = true
        → (plotOut afterSingle showFalseArgs).2 = Option.none) :=
  plot_show_xor_return afterSingle showFalseArgs
    (plotOut afterSingle showFalseArgs) rfl
